import Mathlib

/-!
Verification of the connection-establishment and control-plane layer of an
AMQP 1.0 server (files src/server/factory.rs and src/control.rs).

The asynchronous combinator pipelines of the source are embedded as pure
functions over an explicit input script: every read the code performs is a
lookup in the script, every write is appended to an output trace, and the
reference-counted Cell primitive is embedded as an address into an explicit
heap so that handle cloning and aliasing are observable.
-/

/-! ## Shared Cell primitive (crate cell, used by both source files)

A Cell is a reference-counted handle to one mutable value.  We embed a
handle as a bare address and keep the values in an explicit heap; cloning a
handle copies the address (aliasing), mutation updates the heap at the
address of the handle and is therefore visible through every alias. -/

structure Cell (T : Type) : Type where
  addr : Nat
deriving DecidableEq, Repr

structure Heap (T : Type) : Type where
  next : Nat
  mem : Nat → Option T

def Heap.empty (T : Type) : Heap T :=
  ⟨0, fun _ => none⟩

def Heap.alloc {T : Type} (h : Heap T) (v : T) : Cell T × Heap T :=
  (⟨h.next⟩, ⟨h.next + 1, fun n => if n = h.next then some v else h.mem n⟩)

def Cell.get {T : Type} (c : Cell T) (h : Heap T) : Option T :=
  h.mem c.addr

def Heap.modify {T : Type} (h : Heap T) (c : Cell T) (f : T → T) : Heap T :=
  ⟨h.next, fun n => if n = c.addr then (h.mem n).map f else h.mem n⟩

def Cell.clone {T : Type} (c : Cell T) : Cell T :=
  c

/-! ## Control frames (src/control.rs)

Payload types of the control-frame kinds.  Their internals are owned by
other modules (rcvlink.rs, sndlink.rs, the codec); the control-frame layer
only stores them, so each is embedded as an opaque record with enough
content to distinguish values. -/

structure ReceiverLink : Type where
  linkId : Nat
deriving DecidableEq, Repr

structure SenderLink : Type where
  linkId : Nat
deriving DecidableEq, Repr

structure SessionInner : Type where
  sessionId : Nat
deriving DecidableEq, Repr

namespace protocol

structure Attach : Type where
  payload : Nat
deriving DecidableEq, Repr

structure FlowFields : Type where
  payload : Nat
deriving DecidableEq, Repr

structure Detach : Type where
  payload : Nat
deriving DecidableEq, Repr

end protocol

structure AmqpProtocolError : Type where
  code : Nat
deriving DecidableEq, Repr

/-- The closed variant set of control-frame kinds (enum ControlFrameKind). -/
inductive ControlFrameKind : Type where
  | AttachReceiver (link : ReceiverLink)
  | AttachSender (attach : protocol.Attach) (link : SenderLink)
  | Flow (flow : protocol.FlowFields) (link : SenderLink)
  | DetachSender (detach : protocol.Detach) (link : SenderLink)
  | DetachReceiver (detach : protocol.Detach) (link : ReceiverLink)
  | ProtocolError (err : AmqpProtocolError)
  | Closed (graceful : Bool)
deriving DecidableEq, Repr

/-- struct FrameInner: the kind of the event plus an optional reference to
the owning session state. -/
structure FrameInner : Type where
  kind : ControlFrameKind
  session : Option (Cell SessionInner)
deriving DecidableEq

/-- struct ControlFrame: an envelope around a shared cell of FrameInner. -/
structure ControlFrame : Type where
  cell : Cell FrameInner
deriving DecidableEq

/-- ControlFrame::new allocates a fresh shared cell whose session field is
Some of the given session handle. -/
def ControlFrame.new (h : Heap FrameInner) (session : Cell SessionInner)
    (kind : ControlFrameKind) : ControlFrame × Heap FrameInner :=
  let p := h.alloc ⟨kind, some session⟩
  (⟨p.1⟩, p.2)

/-- ControlFrame::new_kind allocates a fresh shared cell whose session
field is None. -/
def ControlFrame.new_kind (h : Heap FrameInner) (kind : ControlFrameKind) :
    ControlFrame × Heap FrameInner :=
  let p := h.alloc ⟨kind, none⟩
  (⟨p.1⟩, p.2)

/-- ControlFrame::clone: clones the inner cell handle (reference-count
bump), not the pointed-to value. -/
def ControlFrame.clone (f : ControlFrame) : ControlFrame :=
  ⟨f.cell.clone⟩

/-- ControlFrame::session dereferences the cell and unwraps the optional
session.  The Rust unwrap panics when the session is absent; the panic is
embedded as the value none, a present session as some. -/
def ControlFrame.session (f : ControlFrame) (h : Heap FrameInner) :
    Option (Cell SessionInner) :=
  (f.cell.get h).bind (fun inner => inner.session)

/-- ControlFrame::frame dereferences the cell and returns the kind (none
only for a dangling handle, which allocation never produces). -/
def ControlFrame.frame (f : ControlFrame) (h : Heap FrameInner) :
    Option ControlFrameKind :=
  (f.cell.get h).map (fun inner => inner.kind)

/-! ## Handshake data model (src/server/factory.rs)

The three protocol identifiers of the wire enumeration ProtocolId. -/

inductive ProtocolId : Type where
  | Amqp
  | AmqpSasl
  | AmqpTls
deriving DecidableEq, Repr

/-- The Open performative declared by a peer.  Its fields (capabilities,
max-frame-size, idle-timeout, ...) are opaque to this layer beyond being
stored, so they are embedded as one opaque payload. -/
structure OpenFields : Type where
  payload : Nat
deriving DecidableEq, Repr

/-- An AMQP performative as matched by open_connection: either an Open
frame or any other frame kind, which this layer only passes through into
the Unexpected error. -/
inductive Frame : Type where
  | openPerf (fields : OpenFields)
  | other (tag : Nat)
deriving DecidableEq, Repr

/-- struct AmqpFrame: a channel number plus a performative;
into_parts().1 projects the performative. -/
structure AmqpFrame : Type where
  channel : Nat
  performative : Frame
deriving DecidableEq, Repr

/-- enum HandshakeError (src/server/errors.rs, not under src/).
Modelled from the spec: the error taxonomy names Disconnected,
UnexpectedProtocol (carrying expected and got identifiers, the conversion
of ProtocolIdError::Unexpected), Unexpected carrying the offending frame,
and a service error for application-factory failure; factory.rs constructs
exactly these variants. -/
inductive HandshakeError : Type where
  | Disconnected
  | UnexpectedProtocol (exp : ProtocolId) (got : ProtocolId)
  | Unexpected (frame : Frame)
  | Service
deriving DecidableEq, Repr

/-- Server configuration (struct Configuration, lib.rs, not under src/).
Modelled from the spec: opaque to this layer except that the local Open
frame is built from it, so it is embedded as the Open fields that
Configuration::to_open produces. -/
structure Configuration : Type where
  localOpen : OpenFields
deriving DecidableEq, Repr

/-- Configuration::to_open (not under src/).  Modelled from the spec:
build the local Open frame from configuration. -/
def Configuration.to_open (cfg : Configuration) : OpenFields :=
  cfg.localOpen

/-- struct Connection (src/connection.rs, not under src/).  Modelled from
the spec: the negotiated connection handle combines the local
configuration with the peer declared Open parameters. -/
structure Connection : Type where
  config : Configuration
  remoteOpen : OpenFields
deriving DecidableEq, Repr

/-- Connection::new (not under src/).  Modelled from the spec: stores the
local configuration and the peer declared Open parameters. -/
def Connection.new (cfg : Configuration) (remote : OpenFields) : Connection :=
  ⟨cfg, remote⟩

/-! ## The Open exchange (open_connection, factory.rs lines 235-268)

The framed transport is embedded as the list of AMQP frames the peer will
deliver; the result pairs the outcome with the list of frames the server
sent.  open_connection reads exactly one frame: an Open performative is
answered by sending the local Open on channel 0 and constructing the
Connection; any other performative fails with Unexpected of that
performative; end-of-stream fails with Disconnected. -/

def open_connection (cfg : Configuration) (input : List AmqpFrame) :
    Except HandshakeError Connection × List AmqpFrame :=
  match input with
  | [] => (Except.error HandshakeError.Disconnected, [])
  | f :: _ =>
    match f.performative with
    | Frame.openPerf fields =>
        (Except.ok (Connection.new cfg fields),
         [AmqpFrame.mk 0 (Frame.openPerf cfg.to_open)])
    | Frame.other tag =>
        (Except.error (HandshakeError.Unexpected (Frame.other tag)), [])

/-! ## The post-SASL protocol round trip (handshake, factory.rs lines 201-233)

Reads one protocol identifier: Amqp is echoed back and control proceeds to
open_connection; any other identifier fails with
UnexpectedProtocol (exp Amqp); end-of-stream fails with Disconnected.
Returns (outcome, echoed identifiers, sent AMQP frames). -/

def handshake (cfg : Configuration) (pinput : Option ProtocolId)
    (ainput : List AmqpFrame) :
    Except HandshakeError Connection × List ProtocolId × List AmqpFrame :=
  match pinput with
  | none => (Except.error HandshakeError.Disconnected, [], [])
  | some p =>
    match p with
    | ProtocolId.Amqp =>
        let r := open_connection cfg ainput
        (r.1, [ProtocolId.Amqp], r.2)
    | q =>
        (Except.error (HandshakeError.UnexpectedProtocol ProtocolId.Amqp q),
         [], [])

/-! ## ServerService::call (factory.rs lines 115-198)

The inputs each stage of the pipeline consumes are collected in a script:
the first protocol identifier read under the ProtocolIdCodec framing, the
outcome of the SASL component, the protocol identifier read by the second
negotiation after SASL, the AMQP frames available to the Open exchange,
and the result of the dispatch loop.  SaslAuth credentials, application
state St, the link service S and the connection parameter P stay abstract
type parameters. -/

structure CallScript (Auth : Type) : Type where
  proto1 : Option ProtocolId
  saslOutcome : Except HandshakeError Auth
  proto2 : Option ProtocolId
  frames : List AmqpFrame
  dispatchResult : Except Unit Unit

/-- Everything the pipeline emitted while running: the echoed protocol
identifiers, the AMQP frames sent, the invocations of the application
factory with their (credentials, parameter) arguments, and the state
handles passed to the disconnect hook. -/
structure CallTrace (St P Auth : Type) : Type where
  sentProtoIds : List ProtocolId
  sentFrames : List AmqpFrame
  factoryCalls : List (Option Auth × P)
  hookCalls : List St

/-- The factory error type is opaque here (amqp_codec Error); factory.rs
maps any factory failure to HandshakeError::Service. -/
def serviceResult {A : Type} : Except Unit A → Except HandshakeError A
  | Except.error _ => Except.error HandshakeError.Service
  | Except.ok a => Except.ok a

/-- The handshake part of ServerService::call (factory.rs lines 120-175
plus the factory composition of lines 133-141): dispatch on the first
protocol identifier.
Amqp: echo Amqp, run open_connection, then call the factory with
(None, param).  AmqpSasl: echo AmqpSasl, run the SASL component, then run
handshake (the second protocol round trip) on the same transport.
AmqpTls: fail with UnexpectedProtocol exp Amqp got AmqpTls, sending
nothing.  None: fail with Disconnected.
The SASL component (src/server/sasl.rs, not under src/) is modelled from
the spec: it performs the SASL round trips (outcome scripted) and on
success invokes the application factory with the produced credentials,
yielding the application state and link service before control returns to
the second protocol round trip.
Returns (outcome, echoed identifiers, sent frames, factory invocations). -/
def serverCallHandshake {St S P Auth : Type} (cfg : Configuration)
    (factory : Option Auth → P → Except Unit (St × S)) (param : P)
    (script : CallScript Auth) :
    Except HandshakeError (St × S × Connection) × List ProtocolId
      × List AmqpFrame × List (Option Auth × P) :=
  match script.proto1 with
  | some ProtocolId.Amqp =>
      let r := open_connection cfg script.frames
      match r.1 with
      | Except.error e => (Except.error e, [ProtocolId.Amqp], r.2, [])
      | Except.ok conn =>
          match serviceResult (factory none param) with
          | Except.error e =>
              (Except.error e, [ProtocolId.Amqp], r.2, [(none, param)])
          | Except.ok st_srv =>
              (Except.ok (st_srv.1, st_srv.2, conn), [ProtocolId.Amqp], r.2,
               [(none, param)])
  | some ProtocolId.AmqpSasl =>
      match script.saslOutcome with
      | Except.error e => (Except.error e, [ProtocolId.AmqpSasl], [], [])
      | Except.ok auth =>
          match serviceResult (factory (some auth) param) with
          | Except.error e =>
              (Except.error e, [ProtocolId.AmqpSasl], [],
               [(some auth, param)])
          | Except.ok st_srv =>
              let r := handshake cfg script.proto2 script.frames
              (match r.1 with
               | Except.error e => Except.error e
               | Except.ok conn => Except.ok (st_srv.1, st_srv.2, conn),
               ProtocolId.AmqpSasl :: r.2.1, r.2.2, [(some auth, param)])
  | some ProtocolId.AmqpTls =>
      (Except.error
        (HandshakeError.UnexpectedProtocol ProtocolId.Amqp ProtocolId.AmqpTls),
       [], [], [])
  | none => (Except.error HandshakeError.Disconnected, [], [], [])

/-- The full ServerService::call (factory.rs lines 115-198): run the
handshake part, map any handshake error to the unit service error, and on
success run the dispatch loop (src/server/dispatcher.rs, not under src/;
modelled from the spec: drives the connection until termination, outcome
scripted) followed by the optional disconnect hook.  The hook receives a
State handle to the application state cell; its own result is discarded by
then(move res) and the dispatch result is returned unchanged. -/
def serverCall {St S P Auth : Type} (cfg : Configuration)
    (factory : Option Auth → P → Except Unit (St × S)) (param : P)
    (hook : Option (St → Except Unit Unit)) (script : CallScript Auth) :
    Except Unit Unit × CallTrace St P Auth :=
  let h := serverCallHandshake cfg factory param script
  match h.1 with
  | Except.error _ =>
      (Except.error (), ⟨h.2.1, h.2.2.1, h.2.2.2, []⟩)
  | Except.ok st_srv_conn =>
      let st := st_srv_conn.1
      let res := script.dispatchResult
      match hook with
      | some hk =>
          let _hookRes := hk st
          (res, ⟨h.2.1, h.2.2.1, h.2.2.2, [st]⟩)
      | none =>
          (res, ⟨h.2.1, h.2.2.1, h.2.2.2, []⟩)

/-! ## The Server factory object (factory.rs lines 22-96)

struct Inner holds the application factory, the configuration and the
optional disconnect hook; struct Server and struct ServerService each hold
a Cell handle to one shared Inner.  The factory F and the boxed disconnect
service D stay abstract type parameters. -/

structure ServerInner (F D : Type) : Type where
  factory : F
  config : Configuration
  disconnect : Option D

structure Server (F D : Type) : Type where
  inner : Cell (ServerInner F D)

structure ServerService (F D : Type) : Type where
  inner : Cell (ServerInner F D)

/-- Server::new: allocate a fresh shared Inner with the given factory and
configuration and no disconnect hook. -/
def Server.new {F D : Type} (h : Heap (ServerInner F D)) (config : Configuration)
    (factory : F) : Server F D × Heap (ServerInner F D) :=
  let p := h.alloc ⟨factory, config, none⟩
  (⟨p.1⟩, p.2)

/-- Server::disconnect: through get_mut on the shared cell, set the
disconnect field to Some of the given service and return self. -/
def Server.disconnect {F D : Type} (h : Heap (ServerInner F D))
    (s : Server F D) (srv : D) : Server F D × Heap (ServerInner F D) :=
  (s, h.modify s.inner (fun inn => ⟨inn.factory, inn.config, some srv⟩))

/-- Clone for Server: clone the inner cell handle. -/
def Server.clone {F D : Type} (s : Server F D) : Server F D :=
  ⟨s.inner.clone⟩

/-- Server::new_service: build a ServerService holding a clone of the same
inner cell handle. -/
def Server.new_service {F D : Type} (s : Server F D) : ServerService F D :=
  ⟨s.inner.clone⟩

/-! ## Theorems -/

/-- C8: every control frame built by ControlFrame::new stores a present
session reference and session() returns exactly that reference, its error
branch unreachable; a frame built by ControlFrame::new_kind stores an
absent session, on which session() hits the unwrap failure (embedded as
none).  Link-scoped frames are all built through ControlFrame::new, so
they carry a present session by construction. -/
theorem controlFrame_session_invariant :
    ∀ (h : Heap FrameInner) (s : Cell SessionInner) (k : ControlFrameKind),
      (ControlFrame.new h s k).1.session (ControlFrame.new h s k).2 = some s
    ∧ ∀ (h2 : Heap FrameInner) (k2 : ControlFrameKind),
        (ControlFrame.new_kind h2 k2).1.session
          (ControlFrame.new_kind h2 k2).2 = none := by
  intro h s k
  constructor
  · simp [ControlFrame.new, ControlFrame.session, Cell.get, Heap.alloc]
  · intro h2 k2
    simp [ControlFrame.new_kind, ControlFrame.session, Cell.get, Heap.alloc]

/-- C9: ControlFrame::clone is a handle clone, not a deep copy: the clone
holds the same cell address, so frame() and session() observed through the
clone agree with those observed through the original in every heap, and
both handles denote the same single event. -/
theorem controlFrame_clone_is_handle_clone :
    ∀ (f : ControlFrame),
      (ControlFrame.clone f).cell.addr = f.cell.addr
    ∧ ∀ (h : Heap FrameInner),
        (ControlFrame.clone f).frame h = f.frame h
      ∧ (ControlFrame.clone f).session h = f.session h :=
  fun _ => ⟨rfl, fun _ => ⟨rfl, rfl⟩⟩

/-- C10: a Server built by Server::new starts with no disconnect hook;
Server::disconnect changes only the disconnect field of the shared inner
cell; Server::clone and Server::new_service alias that same cell, so a
hook registered through a clone is the one read (and hence invoked) by
every service instance built from any clone. -/
theorem server_disconnect_hook_shared :
    ∀ {F D : Type} (h : Heap (ServerInner F D)) (cfg : Configuration)
      (fac : F) (srv : D),
      (Server.new h cfg fac).1.inner.get (Server.new h cfg fac).2
        = some ⟨fac, cfg, none⟩
    ∧ (Server.clone (Server.new h cfg fac).1).inner
        = (Server.new h cfg fac).1.inner
    ∧ (Server.new_service (Server.new h cfg fac).1).inner
        = (Server.new h cfg fac).1.inner
    ∧ (Server.new_service (Server.new h cfg fac).1).inner.get
        (Server.disconnect (Server.new h cfg fac).2
          (Server.clone (Server.new h cfg fac).1) srv).2
        = some ⟨fac, cfg, some srv⟩ := by
  intro F D h cfg fac srv
  refine ⟨?_, rfl, rfl, ?_⟩
  · simp [Server.new, Cell.get, Heap.alloc]
  · simp [Server.new, Server.new_service, Server.clone, Server.disconnect,
          Cell.get, Cell.clone, Heap.alloc, Heap.modify]

/-- C4: in the Open exchange, end-of-stream fails with Disconnected, and a
first frame whose performative is not Open fails with Unexpected of that
performative; in both cases no frame is sent and no Connection is
constructed. -/
theorem open_connection_gating :
    ∀ (cfg : Configuration) (input : List AmqpFrame),
      (input = [] →
        open_connection cfg input
          = (Except.error HandshakeError.Disconnected, []))
    ∧ ∀ (f : AmqpFrame) (rest : List AmqpFrame) (tag : Nat),
        input = f :: rest → f.performative = Frame.other tag →
        open_connection cfg input
          = (Except.error (HandshakeError.Unexpected (Frame.other tag)), []) := by
  intro cfg input
  constructor
  · rintro rfl
    rfl
  · rintro f rest tag rfl hperf
    simp [open_connection, hperf]

/-- C4 witness: the two failure shapes evaluated at concrete inputs. -/
theorem open_connection_gating_witness :
    open_connection ⟨⟨0⟩⟩ [] = (Except.error HandshakeError.Disconnected, [])
  ∧ open_connection ⟨⟨0⟩⟩ [⟨0, Frame.other 3⟩]
      = (Except.error (HandshakeError.Unexpected (Frame.other 3)), []) :=
  ⟨(open_connection_gating ⟨⟨0⟩⟩ []).1 rfl,
   (open_connection_gating ⟨⟨0⟩⟩ [⟨0, Frame.other 3⟩]).2
     ⟨0, Frame.other 3⟩ [] 3 rfl rfl⟩

/-- C7: on a first frame carrying an Open performative, open_connection
sends exactly the local Open frame built from the configuration on channel
0 and produces the Connection combining the local configuration with the
peer declared Open fields. -/
theorem open_connection_success :
    ∀ (cfg : Configuration) (fields : OpenFields) (ch : Nat)
      (rest : List AmqpFrame),
      open_connection cfg (⟨ch, Frame.openPerf fields⟩ :: rest)
        = (Except.ok (Connection.new cfg fields),
           [⟨0, Frame.openPerf cfg.to_open⟩]) :=
  fun _ _ _ _ => rfl

/-- C1: dispatch on the first protocol-identifier frame is exhaustive with
exactly the documented outcomes.  End-of-stream fails with Disconnected
and AmqpTls fails with UnexpectedProtocol exp Amqp got AmqpTls, in both
cases with nothing sent afterwards and the factory not invoked; Amqp is
echoed once and the call proceeds to the Open exchange, whose
open_connection outcome decides the frames sent and the result, followed
by the factory; AmqpSasl is echoed and the call proceeds to the SASL
exchange: a SASL failure propagates as the outcome with nothing further
exchanged, and SASL plus factory success proceeds to the second
negotiation and the Open exchange. -/
theorem protocol_id_exhaustive :
    ∀ {St S P Auth : Type} (cfg : Configuration)
      (factory : Option Auth → P → Except Unit (St × S)) (param : P)
      (script : CallScript Auth),
      (script.proto1 = none →
        serverCallHandshake cfg factory param script
          = (Except.error HandshakeError.Disconnected, [], [], []))
    ∧ (script.proto1 = some ProtocolId.AmqpTls →
        serverCallHandshake cfg factory param script
          = (Except.error (HandshakeError.UnexpectedProtocol ProtocolId.Amqp
               ProtocolId.AmqpTls), [], [], []))
    ∧ (script.proto1 = some ProtocolId.Amqp →
        (serverCallHandshake cfg factory param script).2.1 = [ProtocolId.Amqp]
      ∧ (serverCallHandshake cfg factory param script).2.2.1
          = (open_connection cfg script.frames).2
      ∧ (∀ e, (open_connection cfg script.frames).1 = Except.error e →
          (serverCallHandshake cfg factory param script).1 = Except.error e)
      ∧ (∀ conn, (open_connection cfg script.frames).1 = Except.ok conn →
          (serverCallHandshake cfg factory param script).1
            = Except.map (fun q => (q.1, q.2, conn))
                (serviceResult (factory none param))))
    ∧ (script.proto1 = some ProtocolId.AmqpSasl →
        List.head? (serverCallHandshake cfg factory param script).2.1
          = some ProtocolId.AmqpSasl
      ∧ (∀ e, script.saslOutcome = Except.error e →
          serverCallHandshake cfg factory param script
            = (Except.error e, [ProtocolId.AmqpSasl], [], []))
      ∧ (∀ auth q, script.saslOutcome = Except.ok auth →
          serviceResult (factory (some auth) param) = Except.ok q →
          (serverCallHandshake cfg factory param script).1
            = Except.map (fun conn => (q.1, q.2, conn))
                (handshake cfg script.proto2 script.frames).1
        ∧ (serverCallHandshake cfg factory param script).2.1
            = ProtocolId.AmqpSasl
                :: (handshake cfg script.proto2 script.frames).2.1)) := by
  intro St S P Auth cfg factory param script
  refine ⟨fun h1 => ?_, fun h1 => ?_, fun h1 => ?_, fun h1 => ?_⟩
  · simp [serverCallHandshake, h1]
  · simp [serverCallHandshake, h1]
  · refine ⟨?_, ?_, ?_, ?_⟩
    · rcases hr : (open_connection cfg script.frames).1 with e | conn <;>
        rcases hs : serviceResult (factory none param) with e2 | q <;>
          simp [serverCallHandshake, h1, hr, hs]
    · rcases hr : (open_connection cfg script.frames).1 with e | conn <;>
        rcases hs : serviceResult (factory none param) with e2 | q <;>
          simp [serverCallHandshake, h1, hr, hs]
    · intro e he
      rcases hs : serviceResult (factory none param) with e2 | q <;>
        simp [serverCallHandshake, h1, he, hs]
    · intro conn hc
      rcases hs : serviceResult (factory none param) with e2 | q <;>
        simp [serverCallHandshake, h1, hc, hs, Except.map]
  · refine ⟨?_, ?_, ?_⟩
    · rcases hso : script.saslOutcome with e | auth
      · simp [serverCallHandshake, h1, hso]
      · rcases hs : serviceResult (factory (some auth) param) with e2 | q <;>
          simp [serverCallHandshake, h1, hso, hs]
    · intro e he
      simp [serverCallHandshake, h1, he]
    · intro auth q hso hs
      constructor
      · rcases hh : (handshake cfg script.proto2 script.frames).1 with e | conn <;>
          simp [serverCallHandshake, h1, hso, hs, hh, Except.map]
      · simp [serverCallHandshake, h1, hso, hs]

/-- C1 witness: the four first-frame cases evaluated on concrete scripts. -/
theorem protocol_id_exhaustive_witness :
    serverCallHandshake ⟨⟨0⟩⟩
        (fun _ _ => (Except.ok (1, 2) : Except Unit (Nat × Nat))) (5 : Nat)
        (⟨none, Except.error HandshakeError.Disconnected, none, [],
          Except.ok ()⟩ : CallScript Nat)
      = (Except.error HandshakeError.Disconnected, [], [], [])
  ∧ serverCallHandshake ⟨⟨0⟩⟩
        (fun _ _ => (Except.ok (1, 2) : Except Unit (Nat × Nat))) (5 : Nat)
        (⟨some ProtocolId.AmqpTls, Except.error HandshakeError.Disconnected,
          none, [], Except.ok ()⟩ : CallScript Nat)
      = (Except.error (HandshakeError.UnexpectedProtocol ProtocolId.Amqp
           ProtocolId.AmqpTls), [], [], [])
  ∧ (serverCallHandshake ⟨⟨0⟩⟩
        (fun _ _ => (Except.ok (1, 2) : Except Unit (Nat × Nat))) (5 : Nat)
        (⟨some ProtocolId.Amqp, Except.error HandshakeError.Disconnected,
          none, [⟨0, Frame.openPerf ⟨9⟩⟩], Except.ok ()⟩ : CallScript Nat)).1
      = Except.ok (1, 2, Connection.new ⟨⟨0⟩⟩ ⟨9⟩)
  ∧ (serverCallHandshake ⟨⟨0⟩⟩
        (fun _ _ => (Except.ok (1, 2) : Except Unit (Nat × Nat))) (5 : Nat)
        (⟨some ProtocolId.AmqpSasl, Except.ok 7, some ProtocolId.Amqp,
          [⟨0, Frame.openPerf ⟨9⟩⟩], Except.ok ()⟩ : CallScript Nat)).1
      = Except.ok (1, 2, Connection.new ⟨⟨0⟩⟩ ⟨9⟩) :=
  ⟨(protocol_id_exhaustive ⟨⟨0⟩⟩ _ 5 _).1 rfl,
   (protocol_id_exhaustive ⟨⟨0⟩⟩ _ 5 _).2.1 rfl,
   ((protocol_id_exhaustive ⟨⟨0⟩⟩ _ 5 _).2.2.1 rfl).2.2.2
     (Connection.new ⟨⟨0⟩⟩ ⟨9⟩) rfl,
   (((protocol_id_exhaustive ⟨⟨0⟩⟩
        (fun _ _ => (Except.ok (1, 2) : Except Unit (Nat × Nat))) 5
        (⟨some ProtocolId.AmqpSasl, Except.ok 7, some ProtocolId.Amqp,
          [⟨0, Frame.openPerf ⟨9⟩⟩], Except.ok ()⟩ : CallScript Nat)).2.2.2
       rfl).2.2 7 (1, 2) rfl rfl).1⟩

/-- C5: after AmqpSasl was selected and the SASL exchange and factory
succeeded, a second full protocol-identifier round trip runs before the
Open exchange: an identifier other than Amqp fails with
UnexpectedProtocol exp Amqp got that identifier, end-of-stream fails with
Disconnected, and Amqp is answered by echoing Amqp — so the call echoes
exactly AmqpSasl then Amqp, two protocol-identifier round trips — before
the Open exchange decides the outcome. -/
theorem sasl_double_roundtrip :
    ∀ {St S P Auth : Type} (cfg : Configuration)
      (factory : Option Auth → P → Except Unit (St × S)) (param : P)
      (script : CallScript Auth) (auth : Auth) (q : St × S),
      script.proto1 = some ProtocolId.AmqpSasl →
      script.saslOutcome = Except.ok auth →
      serviceResult (factory (some auth) param) = Except.ok q →
      (∀ p, script.proto2 = some p → p ≠ ProtocolId.Amqp →
        (serverCallHandshake cfg factory param script).1
          = Except.error (HandshakeError.UnexpectedProtocol ProtocolId.Amqp p))
    ∧ (script.proto2 = none →
        (serverCallHandshake cfg factory param script).1
          = Except.error HandshakeError.Disconnected)
    ∧ (script.proto2 = some ProtocolId.Amqp →
        (serverCallHandshake cfg factory param script).2.1
          = [ProtocolId.AmqpSasl, ProtocolId.Amqp]
      ∧ (serverCallHandshake cfg factory param script).2.2.1
          = (open_connection cfg script.frames).2
      ∧ (serverCallHandshake cfg factory param script).1
          = Except.map (fun conn => (q.1, q.2, conn))
              (open_connection cfg script.frames).1) := by
  intro St S P Auth cfg factory param script auth q h1 hso hs
  refine ⟨?_, ?_, ?_⟩
  · intro p hp2 hpne
    cases p
    · exact absurd rfl hpne
    · simp [serverCallHandshake, handshake, h1, hso, hs, hp2, Except.map]
    · simp [serverCallHandshake, handshake, h1, hso, hs, hp2, Except.map]
  · intro hp2
    simp [serverCallHandshake, handshake, h1, hso, hs, hp2]
  · intro hp2
    refine ⟨?_, ?_, ?_⟩
    · rcases hr : (open_connection cfg script.frames).1 with e | conn <;>
        simp [serverCallHandshake, handshake, h1, hso, hs, hp2, hr]
    · rcases hr : (open_connection cfg script.frames).1 with e | conn <;>
        simp [serverCallHandshake, handshake, h1, hso, hs, hp2, hr]
    · rcases hr : (open_connection cfg script.frames).1 with e | conn <;>
        simp [serverCallHandshake, handshake, h1, hso, hs, hp2, hr, Except.map]

/-- C5 witness: a SASL-path script whose peer re-sends Amqp, evaluated
concretely: both identifiers are echoed and the Open exchange runs. -/
theorem sasl_double_roundtrip_witness :
    (serverCallHandshake ⟨⟨0⟩⟩
        (fun _ _ => (Except.ok (1, 2) : Except Unit (Nat × Nat))) (5 : Nat)
        (⟨some ProtocolId.AmqpSasl, Except.ok 7, some ProtocolId.Amqp,
          [⟨0, Frame.openPerf ⟨9⟩⟩], Except.ok ()⟩ : CallScript Nat)).2.1
      = [ProtocolId.AmqpSasl, ProtocolId.Amqp] :=
  ((sasl_double_roundtrip ⟨⟨0⟩⟩
      (fun _ _ => (Except.ok (1, 2) : Except Unit (Nat × Nat))) 5
      (⟨some ProtocolId.AmqpSasl, Except.ok 7, some ProtocolId.Amqp,
        [⟨0, Frame.openPerf ⟨9⟩⟩], Except.ok ()⟩ : CallScript Nat)
      7 (1, 2) rfl rfl rfl).2.2 rfl).1

/-- C6: echo symmetry.  Whenever protocol-identifier negotiation accepts
the received identifier, the identifier echoed back before the next stage
is exactly the received one: in the initial negotiation Amqp and AmqpSasl
are each answered with themselves, and in the post-SASL renegotiation a
received Amqp is answered with Amqp. -/
theorem echo_symmetry :
    ∀ {St S P Auth : Type} (cfg : Configuration)
      (factory : Option Auth → P → Except Unit (St × S)) (param : P)
      (script : CallScript Auth) (p : ProtocolId) (frames : List AmqpFrame),
      (script.proto1 = some p → p ≠ ProtocolId.AmqpTls →
        List.head? (serverCallHandshake cfg factory param script).2.1 = some p)
    ∧ (handshake cfg (some ProtocolId.Amqp) frames).2.1 = [ProtocolId.Amqp] := by
  intro St S P Auth cfg factory param script p frames
  constructor
  · intro h1 hne
    cases p
    · rcases hr : (open_connection cfg script.frames).1 with e | conn <;>
        rcases hs : serviceResult (factory none param) with e2 | q <;>
          simp [serverCallHandshake, h1, hr, hs]
    · rcases hso : script.saslOutcome with e | auth
      · simp [serverCallHandshake, h1, hso]
      · rcases hs : serviceResult (factory (some auth) param) with e2 | q <;>
          simp [serverCallHandshake, h1, hso, hs]
    · exact absurd rfl hne
  · rfl

/-- C6 witness: both negotiations evaluated on concrete inputs with the
accepted identifiers echoed back unchanged. -/
theorem echo_symmetry_witness :
    List.head? (serverCallHandshake ⟨⟨0⟩⟩
        (fun _ _ => (Except.ok (1, 2) : Except Unit (Nat × Nat))) (5 : Nat)
        (⟨some ProtocolId.AmqpSasl, Except.error HandshakeError.Disconnected,
          none, [], Except.ok ()⟩ : CallScript Nat)).2.1
      = some ProtocolId.AmqpSasl
  ∧ (handshake ⟨⟨0⟩⟩ (some ProtocolId.Amqp) []).2.1 = [ProtocolId.Amqp] :=
  ⟨(echo_symmetry ⟨⟨0⟩⟩
      (fun _ _ => (Except.ok (1, 2) : Except Unit (Nat × Nat))) 5
      (⟨some ProtocolId.AmqpSasl, Except.error HandshakeError.Disconnected,
        none, [], Except.ok ()⟩ : CallScript Nat)
      ProtocolId.AmqpSasl []).1 rfl (by decide),
   (echo_symmetry ⟨⟨0⟩⟩
      (fun _ _ => (Except.ok (1, 2) : Except Unit (Nat × Nat))) 5
      (⟨some ProtocolId.AmqpSasl, Except.error HandshakeError.Disconnected,
        none, [], Except.ok ()⟩ : CallScript Nat)
      ProtocolId.AmqpSasl []).2⟩

/-- C2 counterexample: on the SASL path the application state and link
service handed to the rest of the pipeline are produced by the factory
inside the SASL component, before the second protocol-identifier round
trip and the Open exchange.  On this concrete script SASL succeeds but the
peer then disconnects, so the handshake fails with Disconnected and no
Connection is produced — yet the factory was invoked (once, with the SASL
credentials), contradicting the claim that the factory is invoked only
after the handshake has completed successfully. -/
theorem factory_runs_before_handshake_completion :
    (serverCallHandshake ⟨⟨0⟩⟩
        (fun _ _ => (Except.ok (1, 2) : Except Unit (Nat × Nat))) (5 : Nat)
        (⟨some ProtocolId.AmqpSasl, Except.ok 7, none, [],
          Except.ok ()⟩ : CallScript Nat)).1
      = Except.error HandshakeError.Disconnected
  ∧ (serverCallHandshake ⟨⟨0⟩⟩
        (fun _ _ => (Except.ok (1, 2) : Except Unit (Nat × Nat))) (5 : Nat)
        (⟨some ProtocolId.AmqpSasl, Except.ok 7, none, [],
          Except.ok ()⟩ : CallScript Nat)).2.2.2
      = [(some 7, 5)] :=
  ⟨rfl, rfl⟩

/-- C2 amended: the application factory is invoked at most once per
accepted connection; whenever the handshake produces a Connection the
factory was invoked exactly once with (optional SASL credentials,
connection parameter); on the bare-AMQP path it is invoked only after the
Open exchange succeeded, and on the SASL path only after the SASL exchange
succeeded (but before the second negotiation and the Open exchange); a
handshake failure never produces a Connection — the caller receives only
the classified error. -/
theorem factory_invocation_discipline :
    ∀ {St S P Auth : Type} (cfg : Configuration)
      (factory : Option Auth → P → Except Unit (St × S)) (param : P)
      (script : CallScript Auth),
      (serverCallHandshake cfg factory param script).2.2.2.length ≤ 1
    ∧ (∀ st srv conn,
        (serverCallHandshake cfg factory param script).1
          = Except.ok (st, srv, conn) →
        ∃ creds, (serverCallHandshake cfg factory param script).2.2.2
          = [(creds, param)])
    ∧ (script.proto1 = some ProtocolId.Amqp → ∀ e,
        (open_connection cfg script.frames).1 = Except.error e →
        (serverCallHandshake cfg factory param script).2.2.2 = [])
    ∧ (script.proto1 = some ProtocolId.AmqpSasl → ∀ e,
        script.saslOutcome = Except.error e →
        (serverCallHandshake cfg factory param script).2.2.2 = []) := by
  intro St S P Auth cfg factory param script
  refine ⟨?_, ?_, ?_, ?_⟩
  · rcases h1 : script.proto1 with _ | p
    · simp [serverCallHandshake, h1]
    · cases p
      · rcases hr : (open_connection cfg script.frames).1 with e | conn <;>
          rcases hs : serviceResult (factory none param) with e2 | q <;>
            simp [serverCallHandshake, h1, hr, hs]
      · rcases hso : script.saslOutcome with e | auth
        · simp [serverCallHandshake, h1, hso]
        · rcases hs : serviceResult (factory (some auth) param) with e2 | q <;>
            simp [serverCallHandshake, h1, hso, hs]
      · simp [serverCallHandshake, h1]
  · intro st srv conn hok
    rcases h1 : script.proto1 with _ | p
    · simp [serverCallHandshake, h1] at hok
    · cases p
      · refine ⟨none, ?_⟩
        rcases hr : (open_connection cfg script.frames).1 with e | c
        · simp [serverCallHandshake, h1, hr] at hok
        · rcases hs : serviceResult (factory none param) with e2 | q <;>
            simp [serverCallHandshake, h1, hr, hs] at hok ⊢
      · rcases hso : script.saslOutcome with e | auth
        · simp [serverCallHandshake, h1, hso] at hok
        · refine ⟨some auth, ?_⟩
          rcases hs : serviceResult (factory (some auth) param) with e2 | q <;>
            simp [serverCallHandshake, h1, hso, hs] at hok ⊢
      · simp [serverCallHandshake, h1] at hok
  · intro h1 e he
    rcases hs : serviceResult (factory none param) with e2 | q <;>
      simp [serverCallHandshake, h1, he, hs]
  · intro h1 e he
    simp [serverCallHandshake, h1, he]

/-- C2 amended witness: a successful bare-AMQP handshake calls the factory
exactly once with no credentials, and a failed Open exchange on the
bare-AMQP path leaves the factory uninvoked. -/
theorem factory_invocation_discipline_witness :
    (∃ creds,
      (serverCallHandshake ⟨⟨0⟩⟩
          (fun _ _ => (Except.ok (1, 2) : Except Unit (Nat × Nat))) (5 : Nat)
          (⟨some ProtocolId.Amqp, Except.error HandshakeError.Disconnected,
            none, [⟨0, Frame.openPerf ⟨9⟩⟩], Except.ok ()⟩
            : CallScript Nat)).2.2.2
        = [(creds, 5)])
  ∧ (serverCallHandshake ⟨⟨0⟩⟩
        (fun _ _ => (Except.ok (1, 2) : Except Unit (Nat × Nat))) (5 : Nat)
        (⟨some ProtocolId.Amqp, Except.error HandshakeError.Disconnected,
          none, [], Except.ok ()⟩ : CallScript Nat)).2.2.2
      = [] :=
  ⟨(factory_invocation_discipline ⟨⟨0⟩⟩
      (fun _ _ => (Except.ok (1, 2) : Except Unit (Nat × Nat))) 5
      (⟨some ProtocolId.Amqp, Except.error HandshakeError.Disconnected,
        none, [⟨0, Frame.openPerf ⟨9⟩⟩], Except.ok ()⟩
        : CallScript Nat)).2.1
      1 2 (Connection.new ⟨⟨0⟩⟩ ⟨9⟩) rfl,
   (factory_invocation_discipline ⟨⟨0⟩⟩
      (fun _ _ => (Except.ok (1, 2) : Except Unit (Nat × Nat))) 5
      (⟨some ProtocolId.Amqp, Except.error HandshakeError.Disconnected,
        none, [], Except.ok ()⟩ : CallScript Nat)).2.2.1
      rfl HandshakeError.Disconnected rfl⟩

/-- C3: whenever the handshake part of the call succeeded (so the dispatch
loop ran) and a disconnect hook is registered, the hook is invoked exactly
once with the handle to the application state, and the result the caller
observes is exactly the dispatch-loop termination result, whatever the
hook itself returns (the hook hk is universally quantified and the
observed result does not depend on it). -/
theorem disconnect_hook_always_runs :
    ∀ {St S P Auth : Type} (cfg : Configuration)
      (factory : Option Auth → P → Except Unit (St × S)) (param : P)
      (hk : St → Except Unit Unit) (script : CallScript Auth)
      (st : St) (srv : S) (conn : Connection),
      (serverCallHandshake cfg factory param script).1
        = Except.ok (st, srv, conn) →
      (serverCall cfg factory param (some hk) script).2.hookCalls = [st]
    ∧ (serverCall cfg factory param (some hk) script).1
        = script.dispatchResult := by
  intro St S P Auth cfg factory param hk script st srv conn hok
  constructor
  · simp [serverCall, hok]
  · simp [serverCall, hok]

/-- C3 witness: a concrete run in which the dispatch loop succeeds and the
registered hook fails; the hook is recorded as invoked once with the
application state, and the caller still observes the dispatch result. -/
theorem disconnect_hook_always_runs_witness :
    (serverCall ⟨⟨0⟩⟩
        (fun _ _ => (Except.ok (1, 2) : Except Unit (Nat × Nat))) (5 : Nat)
        (some (fun _ => Except.error ()))
        (⟨some ProtocolId.Amqp, Except.error HandshakeError.Disconnected,
          none, [⟨0, Frame.openPerf ⟨9⟩⟩], Except.ok ()⟩
          : CallScript Nat)).2.hookCalls
      = [1]
  ∧ (serverCall ⟨⟨0⟩⟩
        (fun _ _ => (Except.ok (1, 2) : Except Unit (Nat × Nat))) (5 : Nat)
        (some (fun _ => Except.error ()))
        (⟨some ProtocolId.Amqp, Except.error HandshakeError.Disconnected,
          none, [⟨0, Frame.openPerf ⟨9⟩⟩], Except.ok ()⟩
          : CallScript Nat)).1
      = Except.ok () :=
  disconnect_hook_always_runs ⟨⟨0⟩⟩
    (fun _ _ => (Except.ok (1, 2) : Except Unit (Nat × Nat))) 5
    (fun _ => Except.error ())
    (⟨some ProtocolId.Amqp, Except.error HandshakeError.Disconnected,
      none, [⟨0, Frame.openPerf ⟨9⟩⟩], Except.ok ()⟩ : CallScript Nat)
    1 2 (Connection.new ⟨⟨0⟩⟩ ⟨9⟩) rfl
